import Mathlib

/-!
Verification of the `helix::moderation` module of `twitch_api2`
(`src/helix/moderation.rs`), a typed client binding for the Twitch Helix
chat-moderation endpoints.  The module defines five request descriptor
types, their response record schemas, URI query parameters, pagination
and the required authorization scope.  Parts of the surrounding crate
(the generic `helix` request machinery, `typed_builder`, `serde_json`)
are not part of the excerpt; where a definition models one of those it
says so in its doc comment.
-/

namespace Moderation

/-- Modelled from the spec: `helix::Cursor`, an opaque continuation token
returned by a listing endpoint.  A plain string. -/
abbrev Cursor := String

/-- Modelled from the spec: `types::UserId`, a user identifier, a plain string. -/
abbrev UserId := String

/-- Modelled from the spec: `types::DisplayName`, a display name, a plain string. -/
abbrev DisplayName := String

/-- Modelled from the spec: `types::Timestamp`, an RFC3339 timestamp carried
as a plain string. -/
abbrev Timestamp := String

/-- JSON values, the wire format the schemas decode from and encode to. -/
inductive Json where
  | null : Json
  | bool (b : Bool) : Json
  | num (n : Int) : Json
  | str (s : String) : Json
  | arr (xs : List Json) : Json
  | obj (fields : List (String × Json)) : Json

/-- Field lookup in a JSON object, first occurrence wins (the decoders
reject duplicate known fields separately, as serde does). -/
def getField (fs : List (String × Json)) (k : String) : Option Json :=
  match fs.find? (fun p => p.1 == k) with
  | some p => some p.2
  | none => none

/-! ## Response record schemas

Each record struct in the source derives `Deserialize` and carries
`#[cfg_attr(not(feature = "allow_unknown_fields"), serde(deny_unknown_fields))]`:
unknown fields are rejected exactly when the crate-wide feature is off.
The decoders below follow the semantics of the serde derive for the
struct definitions in the source: a record decodes from a JSON object,
unknown keys fail in strict mode and are skipped in lenient mode,
duplicate known keys fail, missing required fields fail, a missing
`Option` field decodes to `none`. -/

/-- Schema `Moderator`, record from `get_moderators` (src lines 80-92). -/
structure Moderator where
  user_id : UserId
  user_name : DisplayName
deriving DecidableEq, Repr

/-- Schema `ModeratorEvent`, record from `get_moderator_events` (src lines 212-227).
The `event_data` field is `HashMap<String, String>` in the source; it is
modelled as the association list of entries in payload order. -/
structure ModeratorEvent where
  id : String
  event_type : String
  event_timestamp : Timestamp
  version : String
  event_data : List (String × String)
deriving DecidableEq, Repr

/-- Schema `BannedUser`, record from `get_banned_users` (src lines 373-383). -/
structure BannedUser where
  user_id : UserId
  user_name : DisplayName
  expires_at : Option Timestamp
deriving DecidableEq, Repr

/-- Schema `BannedEvent`, record from `get_banned_events` (src lines 507-522).
`event_data` is modelled as for `ModeratorEvent`. -/
structure BannedEvent where
  id : String
  event_type : String
  event_timestamp : Timestamp
  version : String
  event_data : List (String × String)
deriving DecidableEq, Repr

/-- Schema `CheckAutoModStatus`, record from `check_automod_status` (src lines 701-709). -/
structure CheckAutoModStatus where
  msg_id : String
  is_permitted : Bool
deriving DecidableEq, Repr

/-- The shared shell of a serde struct decode: reject unknown keys in
strict mode, reject duplicated known keys, then hand the field lookup
function to the per-struct body. -/
def decodeWith {α : Type} (known : List String) (strict : Bool)
    (body : (String → Option Json) → Except String α) : Json → Except String α
  | .obj fs =>
    if strict && fs.any (fun p => !(known.contains p.1)) then
      .error "unknown field"
    else if known.any (fun key => 1 < fs.countP (fun p => p.1 == key)) then
      .error "duplicate field"
    else
      body (fun key => getField fs key)
  | _ => .error "expected object"

/-- Decode an optional string-valued field the way serde decodes
`Option<String>`: missing or null gives `none`. -/
def decodeOptStr : Option Json → Except String (Option String)
  | none => .ok none
  | some .null => .ok none
  | some (.str s) => .ok (some s)
  | some _ => .error "expected string"

/-- Decode a JSON object whose values must all be strings, as serde decodes
`HashMap<String, String>`; entries kept in payload order. -/
def decodeStrPairs : List (String × Json) → Except String (List (String × String))
  | [] => .ok []
  | (k, .str s) :: rest => (decodeStrPairs rest).map (fun t => (k, s) :: t)
  | _ => .error "expected string value"

/-- Known keys of the `Moderator` schema, in declaration order. -/
def moderatorKeys : List String := ["user_id", "user_name"]

/-- Decoder for `Moderator` (serde derive on src lines 80-92). -/
def decodeModerator (strict : Bool) : Json → Except String Moderator :=
  decodeWith moderatorKeys strict (fun g =>
    match g "user_id", g "user_name" with
    | some (.str u), some (.str n) => .ok { user_id := u, user_name := n }
    | _, _ => .error "bad field")

/-- Known keys of the `ModeratorEvent` schema, in declaration order. -/
def moderatorEventKeys : List String :=
  ["id", "event_type", "event_timestamp", "version", "event_data"]

/-- Decoder for `ModeratorEvent` (serde derive on src lines 212-227). -/
def decodeModeratorEvent (strict : Bool) : Json → Except String ModeratorEvent :=
  decodeWith moderatorEventKeys strict (fun g =>
    match g "id", g "event_type", g "event_timestamp", g "version", g "event_data" with
    | some (.str i), some (.str ty), some (.str ts), some (.str ver), some (.obj ed) =>
      (decodeStrPairs ed).map (fun pairs =>
        { id := i, event_type := ty, event_timestamp := ts, version := ver,
          event_data := pairs })
    | _, _, _, _, _ => .error "bad field")

/-- Known keys of the `BannedUser` schema, in declaration order. -/
def bannedUserKeys : List String := ["user_id", "user_name", "expires_at"]

/-- Decoder for `BannedUser` (serde derive on src lines 373-383). -/
def decodeBannedUser (strict : Bool) : Json → Except String BannedUser :=
  decodeWith bannedUserKeys strict (fun g =>
    match g "user_id", g "user_name" with
    | some (.str u), some (.str n) =>
      (decodeOptStr (g "expires_at")).map (fun e =>
        { user_id := u, user_name := n, expires_at := e })
    | _, _ => .error "bad field")

/-- Known keys of the `BannedEvent` schema, in declaration order. -/
def bannedEventKeys : List String :=
  ["id", "event_type", "event_timestamp", "version", "event_data"]

/-- Decoder for `BannedEvent` (serde derive on src lines 507-522). -/
def decodeBannedEvent (strict : Bool) : Json → Except String BannedEvent :=
  decodeWith bannedEventKeys strict (fun g =>
    match g "id", g "event_type", g "event_timestamp", g "version", g "event_data" with
    | some (.str i), some (.str ty), some (.str ts), some (.str ver), some (.obj ed) =>
      (decodeStrPairs ed).map (fun pairs =>
        { id := i, event_type := ty, event_timestamp := ts, version := ver,
          event_data := pairs })
    | _, _, _, _, _ => .error "bad field")

/-- Known keys of the `CheckAutoModStatus` schema, in declaration order. -/
def checkAutoModStatusKeys : List String := ["msg_id", "is_permitted"]

/-- Decoder for `CheckAutoModStatus` (serde derive on src lines 701-709). -/
def decodeCheckAutoModStatus (strict : Bool) : Json → Except String CheckAutoModStatus :=
  decodeWith checkAutoModStatusKeys strict (fun g =>
    match g "msg_id", g "is_permitted" with
    | some (.str m), some (.bool b) => .ok { msg_id := m, is_permitted := b }
    | _, _ => .error "bad field")

/-! ## Response envelope -/

/-- Modelled from the spec: the `helix::Response` envelope, shape
`\x7b"data": [...], "pagination": \x7b"cursor": "<opaque string>"\x7d\x7d`
where `pagination` may be absent or `cursor` may be absent. -/
structure HelixResponse (α : Type) where
  data : List α
  pagination : Option Cursor
deriving Repr

/-- Decode each element of a JSON array with the given record decoder. -/
def decodeEach {α : Type} (dec : Json → Except String α) :
    List Json → Except String (List α)
  | [] => .ok []
  | x :: xs => do
    let r ← dec x
    let rs ← decodeEach dec xs
    .ok (r :: rs)

/-- Modelled from the spec: decoding of the response envelope, a required
`data` array of records plus an optional `pagination.cursor` string. -/
def decodeHelixResponse {α : Type} (dec : Json → Except String α) :
    Json → Except String (HelixResponse α)
  | .obj fs =>
    match getField fs "data" with
    | some (.arr xs) =>
      (decodeEach dec xs).map (fun items =>
        { data := items,
          pagination :=
            match getField fs "pagination" with
            | some (.obj ps) =>
              match getField ps "cursor" with
              | some (.str c) => some c
              | _ => none
            | _ => none })
    | _ => .error "missing data"
  | _ => .error "expected object"

/-! ## Request descriptors

One struct per endpoint, fields in source declaration order.  The
`typed_builder` builder makes `broadcaster_id` mandatory and gives every
`#[builder(default)]` field the Rust `Default` value. -/

/-- Modelled from `Default for Vec<T>` in Rust: the empty vector, used by
`typed_builder` for `#[builder(default)]` list fields. -/
def defaultVec (α : Type) : List α := []

/-- Modelled from `Default for Option<T>` in Rust: `None`, used by
`typed_builder` for `#[builder(default)]` optional fields. -/
def defaultOption (α : Type) : Option α := none

/-- Descriptor `GetModeratorsRequest` (src lines 66-75). -/
structure GetModeratorsRequest where
  broadcaster_id : UserId
  after : Option Cursor
deriving DecidableEq, Repr

/-- Descriptor `GetModeratorEventsRequest` (src lines 192-207). -/
structure GetModeratorEventsRequest where
  broadcaster_id : UserId
  user_id : List UserId
  after : Option Cursor
deriving DecidableEq, Repr

/-- Descriptor `GetBannedUsersRequest` (src lines 354-368). -/
structure GetBannedUsersRequest where
  broadcaster_id : UserId
  user_id : List UserId
  after : Option Cursor
deriving DecidableEq, Repr

/-- Descriptor `GetBannedEventsRequest` (src lines 485-502), including the optional
`first` result-count limit. -/
structure GetBannedEventsRequest where
  broadcaster_id : UserId
  user_id : List UserId
  after : Option Cursor
  first : Option Nat
deriving DecidableEq, Repr

/-- Descriptor `CheckAutoModStatusRequest` (src lines 671-677). -/
structure CheckAutoModStatusRequest where
  broadcaster_id : UserId
deriving DecidableEq, Repr

/-- Body record `CheckAutoModStatusBody` (src lines 682-696). -/
structure CheckAutoModStatusBody where
  msg_id : String
  msg_text : String
  user_id : String
deriving DecidableEq, Repr

/-! ## Paths and scopes -/

/-- Authorization scope tokens (`twitch_oauth2::Scope`); only the ones
relevant to nearby Helix modules are listed. -/
inductive Scope where
  | ModerationRead
  | ChannelReadSubscriptions
  | UserReadEmail
deriving DecidableEq, Repr

/-- Constant `PATH` of `GetModeratorsRequest` (src line 97). -/
def GetModeratorsRequest.PATH : String := "moderation/moderators"

/-- Constant `SCOPE` of `GetModeratorsRequest` (src line 99). -/
def GetModeratorsRequest.SCOPE : List Scope := [Scope.ModerationRead]

/-- Constant `PATH` of `GetModeratorEventsRequest` (src line 232). -/
def GetModeratorEventsRequest.PATH : String := "moderation/moderators/events"

/-- Constant `SCOPE` of `GetModeratorEventsRequest` (src line 234). -/
def GetModeratorEventsRequest.SCOPE : List Scope := [Scope.ModerationRead]

/-- Constant `PATH` of `GetBannedUsersRequest` (src line 388). -/
def GetBannedUsersRequest.PATH : String := "moderation/banned"

/-- Constant `SCOPE` of `GetBannedUsersRequest` (src line 390). -/
def GetBannedUsersRequest.SCOPE : List Scope := [Scope.ModerationRead]

/-- Constant `PATH` of `GetBannedEventsRequest` (src line 527). -/
def GetBannedEventsRequest.PATH : String := "moderation/banned/events"

/-- Constant `SCOPE` of `GetBannedEventsRequest` (src line 529). -/
def GetBannedEventsRequest.SCOPE : List Scope := [Scope.ModerationRead]

/-- Constant `PATH` of `CheckAutoModStatusRequest` (src line 714). -/
def CheckAutoModStatusRequest.PATH : String := "moderation/enforcements/status"

/-- Constant `SCOPE` of `CheckAutoModStatusRequest` (src line 716). -/
def CheckAutoModStatusRequest.SCOPE : List Scope := [Scope.ModerationRead]

/-! ## URI building

`RequestGet::get_uri` lives in the generic `helix` module, outside the
excerpt; it is modelled from the spec: fixed origin plus `/helix/` plus
`PATH`, then a query string of every present (non-default) field in
struct declaration order, list fields repeated as same-named
parameters, default/empty fields omitted. -/

/-- Modelled from the spec: render `key=value` pairs joined with `&`. -/
def renderPairs : List (String × String) → String
  | [] => ""
  | [p] => p.1 ++ "=" ++ p.2
  | p :: q :: ps => p.1 ++ "=" ++ p.2 ++ "&" ++ renderPairs (q :: ps)

/-- Modelled from the spec: the full URI, origin and `/helix/` and path,
with a `?`-delimited query string when any parameter is present. -/
def buildUri (path : String) (pairs : List (String × String)) : String :=
  "https://api.twitch.tv/helix/" ++ path ++
    (if pairs.isEmpty then "" else "?" ++ renderPairs pairs)

/-- Query pairs of an optional cursor or numeric field: present fields
contribute one pair, absent fields none. -/
def optPair (key : String) : Option String → List (String × String)
  | some v => [(key, v)]
  | none => []

/-- Modelled from the spec: serialized query fields of
`GetModeratorsRequest` in declaration order. -/
def GetModeratorsRequest.queryPairs (r : GetModeratorsRequest) :
    List (String × String) :=
  ("broadcaster_id", r.broadcaster_id) :: optPair "after" r.after

/-- Modelled from the spec: `get_uri` for `GetModeratorsRequest`. -/
def GetModeratorsRequest.get_uri (r : GetModeratorsRequest) : String :=
  buildUri GetModeratorsRequest.PATH r.queryPairs

/-- Modelled from the spec: serialized query fields of
`GetModeratorEventsRequest` in declaration order, the `user_id` list
repeated as same-named parameters. -/
def GetModeratorEventsRequest.queryPairs (r : GetModeratorEventsRequest) :
    List (String × String) :=
  ("broadcaster_id", r.broadcaster_id) ::
    (r.user_id.map (fun u => ("user_id", u)) ++ optPair "after" r.after)

/-- Modelled from the spec: `get_uri` for `GetModeratorEventsRequest`. -/
def GetModeratorEventsRequest.get_uri (r : GetModeratorEventsRequest) : String :=
  buildUri GetModeratorEventsRequest.PATH r.queryPairs

/-- Modelled from the spec: serialized query fields of
`GetBannedUsersRequest` in declaration order. -/
def GetBannedUsersRequest.queryPairs (r : GetBannedUsersRequest) :
    List (String × String) :=
  ("broadcaster_id", r.broadcaster_id) ::
    (r.user_id.map (fun u => ("user_id", u)) ++ optPair "after" r.after)

/-- Modelled from the spec: `get_uri` for `GetBannedUsersRequest`. -/
def GetBannedUsersRequest.get_uri (r : GetBannedUsersRequest) : String :=
  buildUri GetBannedUsersRequest.PATH r.queryPairs

/-- Modelled from the spec: serialized query fields of
`GetBannedEventsRequest` in declaration order. -/
def GetBannedEventsRequest.queryPairs (r : GetBannedEventsRequest) :
    List (String × String) :=
  ("broadcaster_id", r.broadcaster_id) ::
    (r.user_id.map (fun u => ("user_id", u)) ++ optPair "after" r.after ++
      optPair "first" (r.first.map toString))

/-- Modelled from the spec: `get_uri` for `GetBannedEventsRequest`. -/
def GetBannedEventsRequest.get_uri (r : GetBannedEventsRequest) : String :=
  buildUri GetBannedEventsRequest.PATH r.queryPairs

/-- Modelled from the spec: serialized query fields of
`CheckAutoModStatusRequest`, only the mandatory broadcaster id. -/
def CheckAutoModStatusRequest.queryPairs (r : CheckAutoModStatusRequest) :
    List (String × String) :=
  [("broadcaster_id", r.broadcaster_id)]

/-- Modelled from the spec: `get_uri` for `CheckAutoModStatusRequest`. -/
def CheckAutoModStatusRequest.get_uri (r : CheckAutoModStatusRequest) : String :=
  buildUri CheckAutoModStatusRequest.PATH r.queryPairs

/-! ## Pagination -/

/-- Impl `Paginated for GetModeratorsRequest` (src line 105): `self.after = cursor`. -/
def GetModeratorsRequest.set_pagination (r : GetModeratorsRequest)
    (cursor : Option Cursor) : GetModeratorsRequest :=
  { r with after := cursor }

/-- Impl `Paginated for GetModeratorEventsRequest` (src line 240). -/
def GetModeratorEventsRequest.set_pagination (r : GetModeratorEventsRequest)
    (cursor : Option Cursor) : GetModeratorEventsRequest :=
  { r with after := cursor }

/-- Impl `Paginated for GetBannedUsersRequest` (src line 396). -/
def GetBannedUsersRequest.set_pagination (r : GetBannedUsersRequest)
    (cursor : Option Cursor) : GetBannedUsersRequest :=
  { r with after := cursor }

/-- Impl `Paginated for GetBannedEventsRequest` (src line 535). -/
def GetBannedEventsRequest.set_pagination (r : GetBannedEventsRequest)
    (cursor : Option Cursor) : GetBannedEventsRequest :=
  { r with after := cursor }

/-! ## JSON serialization of the POST body

`CheckAutoModStatusRequest::body` (src lines 722-729) wraps the record
list in an inner struct with a single `data` field and calls
`serde_json::to_string`.  The serializer below models the compact
`serde_json` output for the derived `Serialize` impls: objects and
arrays without whitespace, struct fields in declaration order, strings
escaped per `serde_json` rules. -/

/-- One hexadecimal digit, lower case. -/
def hexDigit (n : Nat) : Char :=
  if n < 10 then Char.ofNat (48 + n) else Char.ofNat (87 + n)

/-- Escape one character the way `serde_json` does: quote, backslash and
control characters escaped, everything else copied. -/
def escapeChar (c : Char) : String :=
  if c = '"' then "\\\""
  else if c = '\\' then "\\\\"
  else if c.toNat < 32 then
    if c = '\x08' then "\\b"
    else if c = '\t' then "\\t"
    else if c = '\n' then "\\n"
    else if c = '\x0c' then "\\f"
    else if c = '\r' then "\\r"
    else "\\u00" ++ String.mk [hexDigit (c.toNat / 16), hexDigit (c.toNat % 16)]
  else String.singleton c

/-- A JSON string literal: quotes around the escaped characters. -/
def renderString (s : String) : String :=
  "\"" ++ String.join (s.data.map escapeChar) ++ "\""

mutual

/-- Compact rendering of a JSON value, `serde_json::to_string` style. -/
def Json.render : Json → String
  | .null => "null"
  | .bool true => "true"
  | .bool false => "false"
  | .num n => toString n
  | .str s => renderString s
  | .arr xs => "[" ++ renderElems xs ++ "]"
  | .obj fs => "\x7b" ++ renderMembers fs ++ "\x7d"

/-- Comma-separated rendering of array elements. -/
def renderElems : List Json → String
  | [] => ""
  | [x] => Json.render x
  | x :: y :: xs => Json.render x ++ "," ++ renderElems (y :: xs)

/-- Comma-separated rendering of object members. -/
def renderMembers : List (String × Json) → String
  | [] => ""
  | [(k, v)] => renderString k ++ ":" ++ Json.render v
  | (k, v) :: m :: fs =>
    renderString k ++ ":" ++ Json.render v ++ "," ++ renderMembers (m :: fs)

end

/-- Serialization of `CheckAutoModStatusBody` (serde derive on src lines
682-696): an object with the three fields in declaration order. -/
def CheckAutoModStatusBody.toJson (b : CheckAutoModStatusBody) : Json :=
  .obj [("msg_id", .str b.msg_id), ("msg_text", .str b.msg_text),
        ("user_id", .str b.user_id)]

/-- Impl `RequestPost::body for CheckAutoModStatusRequest` (src lines 722-729):
wrap the records in an object under the single key `data` and serialize;
a `serde_json` failure would surface through the error branch. -/
def CheckAutoModStatusRequest.body (_ : CheckAutoModStatusRequest)
    (b : List CheckAutoModStatusBody) : Except String String :=
  .ok (Json.render (.obj [("data", .arr (b.map CheckAutoModStatusBody.toJson))]))

/-! ## Sample payloads from the tests in the source -/

/-- The `event_data` object shared by the three records of the
`get_banned_events` sample payload (src lines 546-594). -/
def bannedEventSampleData : Json :=
  .obj [("broadcaster_id", .str "198704263"),
        ("broadcaster_name", .str "aan22209"),
        ("user_id", .str "424596340"),
        ("user_name", .str "quotrok"),
        ("expires_at", .str "")]

/-- The sample ban-events payload of the `get_banned_events` test
(src lines 546-594): three records and a continuation cursor. -/
def bannedEventsSamplePayload : Json :=
  .obj [("data", .arr
          [.obj [("id", .str "1IPFqAb0p0JncbPSTEPhx8JF1Sa"),
                 ("event_type", .str "moderation.user.ban"),
                 ("event_timestamp", .str "2019-03-13T15:55:14Z"),
                 ("version", .str "1.0"),
                 ("event_data", bannedEventSampleData)],
           .obj [("id", .str "1IPFsDv5cs4mxfJ1s2O9Q5flf4Y"),
                 ("event_type", .str "moderation.user.unban"),
                 ("event_timestamp", .str "2019-03-13T15:55:30Z"),
                 ("version", .str "1.0"),
                 ("event_data", bannedEventSampleData)],
           .obj [("id", .str "1IPFqmlu9W2q4mXXjULyM8zX0rb"),
                 ("event_type", .str "moderation.user.ban"),
                 ("event_timestamp", .str "2019-03-13T15:55:19Z"),
                 ("version", .str "1.0"),
                 ("event_data", bannedEventSampleData)]]),
        ("pagination", .obj
          [("cursor", .str "eyJiIjpudWxsLCJhIjp7IkN1cnNvciI6IjE5OTYwNDI2MzoyMDIxMjA1MzE6MUlQRnFtbHU5VzJxNG1YWGpVTHlNOHpYMHJiIn19")])]

/-! ## Builders

`typed_builder` derives a builder whose only construction path supplies
`broadcaster_id` and leaves every `#[builder(default)]` field at the
Rust `Default` value.  One definition per request type models the
builder call that sets only the mandatory field. -/

/-- Modelled from `typed_builder`: `GetModeratorsRequest::builder()
.broadcaster_id(b).build()`. -/
def GetModeratorsRequest.build_with_broadcaster (b : UserId) : GetModeratorsRequest :=
  { broadcaster_id := b, after := defaultOption Cursor }

/-- Modelled from `typed_builder`: `GetModeratorEventsRequest::builder()
.broadcaster_id(b).build()`. -/
def GetModeratorEventsRequest.build_with_broadcaster (b : UserId) :
    GetModeratorEventsRequest :=
  { broadcaster_id := b, user_id := defaultVec UserId, after := defaultOption Cursor }

/-- Modelled from `typed_builder`: `GetBannedUsersRequest::builder()
.broadcaster_id(b).build()`. -/
def GetBannedUsersRequest.build_with_broadcaster (b : UserId) :
    GetBannedUsersRequest :=
  { broadcaster_id := b, user_id := defaultVec UserId, after := defaultOption Cursor }

/-- Modelled from `typed_builder`: `GetBannedEventsRequest::builder()
.broadcaster_id(b).build()`. -/
def GetBannedEventsRequest.build_with_broadcaster (b : UserId) :
    GetBannedEventsRequest :=
  { broadcaster_id := b, user_id := defaultVec UserId,
    after := defaultOption Cursor, first := defaultOption Nat }

/-! ## Sample record objects

Concrete record objects taken from the test payloads in the source,
used to instantiate the universally quantified theorems below. -/

/-- Fields of a sample `Moderator` record (src lines 118-126). -/
def moderatorSampleFields : List (String × Json) :=
  [("user_id", .str "424596340"), ("user_name", .str "quotrok")]

/-- Fields of a sample `ModeratorEvent` record (src lines 253-265). -/
def moderatorEventSampleFields : List (String × Json) :=
  [("id", .str "1IVBTnDSUDApiBQW4UBcVTK4hPr"),
   ("event_type", .str "moderation.moderator.remove"),
   ("event_timestamp", .str "2019-03-15T18:18:14Z"),
   ("version", .str "1.0"),
   ("event_data", .obj [("broadcaster_id", .str "198704263"),
                        ("broadcaster_name", .str "aan22209"),
                        ("user_id", .str "423374343"),
                        ("user_name", .str "glowillig")])]

/-- Fields of a sample `BannedUser` record (src lines 409-414). -/
def bannedUserSampleFields : List (String × Json) :=
  [("user_id", .str "423374343"), ("user_name", .str "glowillig"),
   ("expires_at", .str "2019-03-15T02:00:28Z")]

/-- Fields of a sample `BannedEvent` record (src lines 549-561). -/
def bannedEventSampleFields : List (String × Json) :=
  [("id", .str "1IPFqAb0p0JncbPSTEPhx8JF1Sa"),
   ("event_type", .str "moderation.user.ban"),
   ("event_timestamp", .str "2019-03-13T15:55:14Z"),
   ("version", .str "1.0"),
   ("event_data", bannedEventSampleData)]

/-- Fields of a sample `CheckAutoModStatus` record (src lines 743-746). -/
def checkAutoModStatusSampleFields : List (String × Json) :=
  [("msg_id", .str "123"), ("is_permitted", .bool true)]

/-! ## Helper lemmas about object decoding

Inserting a field with a fresh key into an object leaves lookups and
counts of every other key unchanged; these feed the unknown-field
policy theorem. -/

theorem find?_insert_ne (key k : String) (v : Json) (hne : (k == key) = false) :
    ∀ l₁ l₂ : List (String × Json),
      (l₁ ++ (k, v) :: l₂).find? (fun p => p.1 == key) =
        (l₁ ++ l₂).find? (fun p => p.1 == key) := by
  intro l₁ l₂
  induction l₁ with
  | nil => simp [List.find?, hne]
  | cons a l ih =>
    simp only [List.cons_append, List.find?]
    cases a.1 == key <;> simp [ih]

theorem getField_insert_ne (key k : String) (v : Json) (hne : (k == key) = false)
    (l₁ l₂ : List (String × Json)) :
    getField (l₁ ++ (k, v) :: l₂) key = getField (l₁ ++ l₂) key := by
  simp [getField, find?_insert_ne key k v hne l₁ l₂]

theorem countP_insert_ne (key k : String) (v : Json) (hne : (k == key) = false)
    (l₁ l₂ : List (String × Json)) :
    (l₁ ++ (k, v) :: l₂).countP (fun p => p.1 == key) =
      (l₁ ++ l₂).countP (fun p => p.1 == key) := by
  simp [List.countP_append, List.countP_cons, hne]

/-- Unfolding equation of `decodeWith` on an object. -/
theorem decodeWith_obj {α : Type} (known : List String) (strict : Bool)
    (body : (String → Option Json) → Except String α)
    (fs : List (String × Json)) :
    decodeWith known strict body (.obj fs) =
      if strict && fs.any (fun p => !(known.contains p.1)) then
        .error "unknown field"
      else if known.any (fun key => 1 < fs.countP (fun p => p.1 == key)) then
        .error "duplicate field"
      else body (fun key => getField fs key) := rfl

/-- Unknown-field policy of `decodeWith`: inserting one field whose key is
not a known key of the schema makes the strict decode fail, while the
lenient decode still succeeds with the value of the original object. -/
theorem decodeWith_unknown_field {α : Type} (known : List String) (k : String)
    (v : Json) (l₁ l₂ : List (String × Json))
    (body : (String → Option Json) → Except String α) (r : α)
    (hk : known.contains k = false)
    (hcong : ∀ g₁ g₂ : String → Option Json,
      (∀ key, known.contains key = true → g₁ key = g₂ key) → body g₁ = body g₂)
    (h : decodeWith known true body (.obj (l₁ ++ l₂)) = .ok r) :
    decodeWith known true body (.obj (l₁ ++ (k, v) :: l₂)) = .error "unknown field" ∧
      decodeWith known false body (.obj (l₁ ++ (k, v) :: l₂)) = .ok r := by
  have hne : ∀ key, known.contains key = true → (k == key) = false := by
    intro key hkey
    refine beq_eq_false_iff_ne.mpr ?_
    intro he
    rw [← he, hk] at hkey
    exact Bool.false_ne_true hkey
  rw [decodeWith_obj, Bool.true_and] at h
  cases hunk : (l₁ ++ l₂).any (fun p => !(known.contains p.1)) with
  | true =>
    rw [hunk, if_pos rfl] at h
    exact Except.noConfusion h
  | false =>
  rw [hunk, if_neg (by simp)] at h
  cases hdup : known.any (fun key => 1 < (l₁ ++ l₂).countP (fun p => p.1 == key)) with
  | true =>
    rw [hdup, if_pos rfl] at h
    exact Except.noConfusion h
  | false =>
  rw [hdup, if_neg (by simp)] at h
  refine ⟨?_, ?_⟩
  · rw [decodeWith_obj, Bool.true_and]
    have hins : (l₁ ++ (k, v) :: l₂).any (fun p => !(known.contains p.1)) = true := by
      simp only [List.any_append, List.any_cons, hk, Bool.not_false,
        Bool.or_true, Bool.true_or]
    rw [hins, if_pos rfl]
  · rw [decodeWith_obj, Bool.false_and, if_neg (by simp)]
    have hdup2 : known.any
        (fun key => 1 < (l₁ ++ (k, v) :: l₂).countP (fun p => p.1 == key)) = false := by
      cases hD : known.any
          (fun key => 1 < (l₁ ++ (k, v) :: l₂).countP (fun p => p.1 == key)) with
      | false => rfl
      | true =>
        exfalso
        obtain ⟨key, hmem, hgt⟩ := List.any_eq_true.mp hD
        have hkey : known.contains key = true := List.elem_eq_true_of_mem hmem
        have hgt2 : 1 < (l₁ ++ l₂).countP (fun p => p.1 == key) := by
          have hgt1 := of_decide_eq_true hgt
          rwa [countP_insert_ne key k v (hne key hkey) l₁ l₂] at hgt1
        have hany : known.any
            (fun key => 1 < (l₁ ++ l₂).countP (fun p => p.1 == key)) = true :=
          List.any_eq_true.mpr ⟨key, hmem, decide_eq_true hgt2⟩
        rw [hdup] at hany
        exact Bool.false_ne_true hany
    rw [hdup2, if_neg (by simp)]
    rw [hcong _ _ (fun key hkey => getField_insert_ne key k v (hne key hkey) l₁ l₂)]
    exact h

/-! ## Claim theorems -/

/-- C1: decoding the sample ban-events payload of the `get_banned_events`
test yields exactly 3 `BannedEvent` records, in the order of the data
array (witnessed by the record ids), with the event types
`moderation.user.ban`, `moderation.user.unban`, `moderation.user.ban`
and an empty `expires_at` entry in each event_data map. -/
theorem c1_banned_events_sample_decode :
    (decodeHelixResponse (decodeBannedEvent true) bannedEventsSamplePayload).map
      (fun r =>
        (r.data.length,
         r.data.map (fun e => e.id),
         r.data.map (fun e => e.event_type),
         r.data.map (fun e =>
           (e.event_data.find? (fun p => p.1 == "expires_at")).map Prod.snd)))
    = .ok (3,
        ["1IPFqAb0p0JncbPSTEPhx8JF1Sa", "1IPFsDv5cs4mxfJ1s2O9Q5flf4Y",
         "1IPFqmlu9W2q4mXXjULyM8zX0rb"],
        ["moderation.user.ban", "moderation.user.unban", "moderation.user.ban"],
        [some "", some "", some ""]) := rfl

/-- C2: for each GET endpoint of the module, the URI built from a
descriptor holding only the mandatory broadcaster id is exactly the
origin, `/helix/`, the endpoint path and the single `broadcaster_id`
query parameter. -/
theorem c2_mandatory_only_uri (b : UserId) :
    GetModeratorsRequest.get_uri (GetModeratorsRequest.build_with_broadcaster b) =
      "https://api.twitch.tv/helix/moderation/moderators?broadcaster_id=" ++ b ∧
    GetModeratorEventsRequest.get_uri
        (GetModeratorEventsRequest.build_with_broadcaster b) =
      "https://api.twitch.tv/helix/moderation/moderators/events?broadcaster_id=" ++ b ∧
    GetBannedUsersRequest.get_uri (GetBannedUsersRequest.build_with_broadcaster b) =
      "https://api.twitch.tv/helix/moderation/banned?broadcaster_id=" ++ b ∧
    GetBannedEventsRequest.get_uri (GetBannedEventsRequest.build_with_broadcaster b) =
      "https://api.twitch.tv/helix/moderation/banned/events?broadcaster_id=" ++ b := by
  refine ⟨?_, ?_, ?_, ?_⟩ <;>
    simp [GetModeratorsRequest.get_uri, GetModeratorsRequest.build_with_broadcaster,
      GetModeratorsRequest.queryPairs, GetModeratorsRequest.PATH,
      GetModeratorEventsRequest.get_uri, GetModeratorEventsRequest.build_with_broadcaster,
      GetModeratorEventsRequest.queryPairs, GetModeratorEventsRequest.PATH,
      GetBannedUsersRequest.get_uri, GetBannedUsersRequest.build_with_broadcaster,
      GetBannedUsersRequest.queryPairs, GetBannedUsersRequest.PATH,
      GetBannedEventsRequest.get_uri, GetBannedEventsRequest.build_with_broadcaster,
      GetBannedEventsRequest.queryPairs, GetBannedEventsRequest.PATH,
      buildUri, optPair, renderPairs, defaultVec, defaultOption,
      ← String.append_assoc]

theorem filter_optPair_ne (key q : String) (hne : (key == q) = false)
    (o : Option String) :
    (optPair key o).filter (fun p => p.1 == q) = [] := by
  cases o <;> simp [optPair, List.filter_cons, hne]

theorem filter_map_user_id_pairs (us : List String) (tail : List (String × String))
    (b : String) (htail : tail.filter (fun p => p.1 == "user_id") = []) :
    (((("broadcaster_id", b) :: (us.map (fun u => ("user_id", u)) ++ tail)).filter
        (fun p => p.1 == "user_id")).map Prod.snd) = us := by
  rw [List.filter_cons_of_neg (by simp), List.filter_append, htail,
    List.append_nil]
  induction us with
  | nil => rfl
  | cons u us ih =>
    rw [List.map_cons, List.filter_cons_of_pos (by simp), List.map_cons, ih]

/-- C3: populating the list-valued `user_id` field with n elements makes
URI construction emit n separate same-named `user_id` query parameters,
one per element, in list order, placed right after the mandatory
`broadcaster_id` at the declaration-order position; the concrete URI for
`user_id = [2, 3]` matches the documented
`broadcaster_id=1&user_id=2&user_id=3` shape. -/
theorem c3_user_id_repeated_params :
    (∀ r : GetBannedUsersRequest,
      ((GetBannedUsersRequest.queryPairs r).filter
          (fun p => p.1 == "user_id")).map Prod.snd = r.user_id) ∧
    (∀ r : GetBannedEventsRequest,
      ((GetBannedEventsRequest.queryPairs r).filter
          (fun p => p.1 == "user_id")).map Prod.snd = r.user_id) ∧
    (∀ r : GetBannedUsersRequest,
      GetBannedUsersRequest.queryPairs r =
        ("broadcaster_id", r.broadcaster_id) ::
          (r.user_id.map (fun u => ("user_id", u)) ++ optPair "after" r.after)) ∧
    (∀ r : GetBannedEventsRequest,
      GetBannedEventsRequest.queryPairs r =
        ("broadcaster_id", r.broadcaster_id) ::
          (r.user_id.map (fun u => ("user_id", u)) ++ optPair "after" r.after ++
            optPair "first" (r.first.map toString))) ∧
    GetBannedUsersRequest.get_uri
        { broadcaster_id := "1", user_id := ["2", "3"], after := none } =
      "https://api.twitch.tv/helix/moderation/banned?broadcaster_id=1&user_id=2&user_id=3" := by
  refine ⟨?_, ?_, fun _ => rfl, fun _ => rfl, rfl⟩
  · intro r
    simp only [GetBannedUsersRequest.queryPairs]
    exact filter_map_user_id_pairs r.user_id _ _
      (filter_optPair_ne "after" "user_id" rfl r.after)
  · intro r
    simp only [GetBannedEventsRequest.queryPairs, List.append_assoc]
    refine filter_map_user_id_pairs r.user_id _ _ ?_
    rw [List.filter_append, filter_optPair_ne "after" "user_id" rfl r.after,
      filter_optPair_ne "first" "user_id" rfl (r.first.map toString),
      List.append_nil]

/-- C4: `set_pagination` on each paginated request type sets the `after`
cursor to the given value and leaves every other field unchanged. -/
theorem c4_set_pagination_frame :
    (∀ (r : GetModeratorsRequest) (c : Option Cursor),
      (r.set_pagination c).broadcaster_id = r.broadcaster_id ∧
      (r.set_pagination c).after = c) ∧
    (∀ (r : GetModeratorEventsRequest) (c : Option Cursor),
      (r.set_pagination c).broadcaster_id = r.broadcaster_id ∧
      (r.set_pagination c).user_id = r.user_id ∧
      (r.set_pagination c).after = c) ∧
    (∀ (r : GetBannedUsersRequest) (c : Option Cursor),
      (r.set_pagination c).broadcaster_id = r.broadcaster_id ∧
      (r.set_pagination c).user_id = r.user_id ∧
      (r.set_pagination c).after = c) ∧
    (∀ (r : GetBannedEventsRequest) (c : Option Cursor),
      (r.set_pagination c).broadcaster_id = r.broadcaster_id ∧
      (r.set_pagination c).user_id = r.user_id ∧
      (r.set_pagination c).first = r.first ∧
      (r.set_pagination c).after = c) :=
  ⟨fun _ _ => ⟨rfl, rfl⟩, fun _ _ => ⟨rfl, rfl, rfl⟩,
   fun _ _ => ⟨rfl, rfl, rfl⟩, fun _ _ => ⟨rfl, rfl, rfl, rfl⟩⟩

/-- C8: a GET request descriptor built with only the mandatory
broadcaster id has every optional field at its default: empty `user_id`
list, `none` cursor and, for `GetBannedEventsRequest`, `none` limit. -/
theorem c8_builder_defaults (b : UserId) :
    ((GetModeratorsRequest.build_with_broadcaster b).broadcaster_id = b ∧
      (GetModeratorsRequest.build_with_broadcaster b).after = none) ∧
    ((GetModeratorEventsRequest.build_with_broadcaster b).broadcaster_id = b ∧
      (GetModeratorEventsRequest.build_with_broadcaster b).user_id = [] ∧
      (GetModeratorEventsRequest.build_with_broadcaster b).after = none) ∧
    ((GetBannedUsersRequest.build_with_broadcaster b).broadcaster_id = b ∧
      (GetBannedUsersRequest.build_with_broadcaster b).user_id = [] ∧
      (GetBannedUsersRequest.build_with_broadcaster b).after = none) ∧
    ((GetBannedEventsRequest.build_with_broadcaster b).broadcaster_id = b ∧
      (GetBannedEventsRequest.build_with_broadcaster b).user_id = [] ∧
      (GetBannedEventsRequest.build_with_broadcaster b).after = none ∧
      (GetBannedEventsRequest.build_with_broadcaster b).first = none) :=
  ⟨⟨rfl, rfl⟩, ⟨rfl, rfl, rfl⟩, ⟨rfl, rfl, rfl⟩, ⟨rfl, rfl, rfl, rfl⟩⟩

/-- C5: for every one of the five record schemas, extending a payload
object that decodes in strict mode with one field whose key is unknown
to that schema makes the strict decode fail while the lenient decode
still succeeds with the strict-mode result of the unextended payload;
the strict/lenient choice is the one boolean switch shared by all five
decoders. -/
theorem c5_unknown_field_policy (k : String) (v : Json)
    (a₁ a₂ b₁ b₂ c₁ c₂ d₁ d₂ e₁ e₂ : List (String × Json))
    (rM : Moderator) (rE : ModeratorEvent) (rU : BannedUser)
    (rB : BannedEvent) (rS : CheckAutoModStatus)
    (hkM : moderatorKeys.contains k = false)
    (hkE : moderatorEventKeys.contains k = false)
    (hkU : bannedUserKeys.contains k = false)
    (hkB : bannedEventKeys.contains k = false)
    (hkS : checkAutoModStatusKeys.contains k = false)
    (hM : decodeModerator true (.obj (a₁ ++ a₂)) = .ok rM)
    (hE : decodeModeratorEvent true (.obj (b₁ ++ b₂)) = .ok rE)
    (hU : decodeBannedUser true (.obj (c₁ ++ c₂)) = .ok rU)
    (hB : decodeBannedEvent true (.obj (d₁ ++ d₂)) = .ok rB)
    (hS : decodeCheckAutoModStatus true (.obj (e₁ ++ e₂)) = .ok rS) :
    (decodeModerator true (.obj (a₁ ++ (k, v) :: a₂)) = .error "unknown field" ∧
      decodeModerator false (.obj (a₁ ++ (k, v) :: a₂)) = .ok rM) ∧
    (decodeModeratorEvent true (.obj (b₁ ++ (k, v) :: b₂)) = .error "unknown field" ∧
      decodeModeratorEvent false (.obj (b₁ ++ (k, v) :: b₂)) = .ok rE) ∧
    (decodeBannedUser true (.obj (c₁ ++ (k, v) :: c₂)) = .error "unknown field" ∧
      decodeBannedUser false (.obj (c₁ ++ (k, v) :: c₂)) = .ok rU) ∧
    (decodeBannedEvent true (.obj (d₁ ++ (k, v) :: d₂)) = .error "unknown field" ∧
      decodeBannedEvent false (.obj (d₁ ++ (k, v) :: d₂)) = .ok rB) ∧
    (decodeCheckAutoModStatus true (.obj (e₁ ++ (k, v) :: e₂)) = .error "unknown field" ∧
      decodeCheckAutoModStatus false (.obj (e₁ ++ (k, v) :: e₂)) = .ok rS) := by
  refine ⟨?_, ?_, ?_, ?_, ?_⟩
  · exact decodeWith_unknown_field moderatorKeys k v a₁ a₂ _ rM hkM
      (by
        intro g₁ g₂ hg
        simp only [hg "user_id" rfl, hg "user_name" rfl]) hM
  · exact decodeWith_unknown_field moderatorEventKeys k v b₁ b₂ _ rE hkE
      (by
        intro g₁ g₂ hg
        simp only [hg "id" rfl, hg "event_type" rfl, hg "event_timestamp" rfl,
          hg "version" rfl, hg "event_data" rfl]) hE
  · exact decodeWith_unknown_field bannedUserKeys k v c₁ c₂ _ rU hkU
      (by
        intro g₁ g₂ hg
        simp only [hg "user_id" rfl, hg "user_name" rfl, hg "expires_at" rfl]) hU
  · exact decodeWith_unknown_field bannedEventKeys k v d₁ d₂ _ rB hkB
      (by
        intro g₁ g₂ hg
        simp only [hg "id" rfl, hg "event_type" rfl, hg "event_timestamp" rfl,
          hg "version" rfl, hg "event_data" rfl]) hB
  · exact decodeWith_unknown_field checkAutoModStatusKeys k v e₁ e₂ _ rS hkS
      (by
        intro g₁ g₂ hg
        simp only [hg "msg_id" rfl, hg "is_permitted" rfl]) hS

/-- Witness for C5: the sample records of the tests in the source,
each extended with the fresh field `"surprise": "x"`. -/
theorem c5_unknown_field_policy_witness :
    (decodeModerator true
        (.obj ([] ++ ("surprise", Json.str "x") :: moderatorSampleFields)) =
        .error "unknown field" ∧
      decodeModerator false
        (.obj ([] ++ ("surprise", Json.str "x") :: moderatorSampleFields)) =
        .ok { user_id := "424596340", user_name := "quotrok" }) ∧
    (decodeModeratorEvent true
        (.obj ([] ++ ("surprise", Json.str "x") :: moderatorEventSampleFields)) =
        .error "unknown field" ∧
      decodeModeratorEvent false
        (.obj ([] ++ ("surprise", Json.str "x") :: moderatorEventSampleFields)) =
        .ok { id := "1IVBTnDSUDApiBQW4UBcVTK4hPr",
              event_type := "moderation.moderator.remove",
              event_timestamp := "2019-03-15T18:18:14Z", version := "1.0",
              event_data := [("broadcaster_id", "198704263"),
                             ("broadcaster_name", "aan22209"),
                             ("user_id", "423374343"),
                             ("user_name", "glowillig")] }) ∧
    (decodeBannedUser true
        (.obj ([] ++ ("surprise", Json.str "x") :: bannedUserSampleFields)) =
        .error "unknown field" ∧
      decodeBannedUser false
        (.obj ([] ++ ("surprise", Json.str "x") :: bannedUserSampleFields)) =
        .ok { user_id := "423374343", user_name := "glowillig",
              expires_at := some "2019-03-15T02:00:28Z" }) ∧
    (decodeBannedEvent true
        (.obj ([] ++ ("surprise", Json.str "x") :: bannedEventSampleFields)) =
        .error "unknown field" ∧
      decodeBannedEvent false
        (.obj ([] ++ ("surprise", Json.str "x") :: bannedEventSampleFields)) =
        .ok { id := "1IPFqAb0p0JncbPSTEPhx8JF1Sa",
              event_type := "moderation.user.ban",
              event_timestamp := "2019-03-13T15:55:14Z", version := "1.0",
              event_data := [("broadcaster_id", "198704263"),
                             ("broadcaster_name", "aan22209"),
                             ("user_id", "424596340"),
                             ("user_name", "quotrok"),
                             ("expires_at", "")] }) ∧
    (decodeCheckAutoModStatus true
        (.obj ([] ++ ("surprise", Json.str "x") :: checkAutoModStatusSampleFields)) =
        .error "unknown field" ∧
      decodeCheckAutoModStatus false
        (.obj ([] ++ ("surprise", Json.str "x") :: checkAutoModStatusSampleFields)) =
        .ok { msg_id := "123", is_permitted := true }) :=
  c5_unknown_field_policy "surprise" (Json.str "x")
    [] moderatorSampleFields [] moderatorEventSampleFields
    [] bannedUserSampleFields [] bannedEventSampleFields
    [] checkAutoModStatusSampleFields
    _ _ _ _ _
    (by decide) (by decide) (by decide) (by decide) (by decide)
    rfl rfl rfl rfl rfl

/-- C6: the POST body of `CheckAutoModStatusRequest` is the JSON text of
a single object with the records, serialized in list order, under the
one key `data`; the result is carried in the success branch of the
`Result`-typed return value, whose error branch is how a serialization
failure would be surfaced.  The second conjunct evaluates the documented
sample body. -/
theorem c6_body_wraps_data :
    (∀ (req : CheckAutoModStatusRequest) (b : List CheckAutoModStatusBody),
      CheckAutoModStatusRequest.body req b =
        .ok ("\x7b\"data\":" ++
          Json.render (.arr (b.map CheckAutoModStatusBody.toJson)) ++ "\x7d")) ∧
    CheckAutoModStatusRequest.body { broadcaster_id := "1234" }
        [{ msg_id := "test1", msg_text := "automod please approve this!",
           user_id := "1234" }] =
      .ok "\x7b\"data\":[\x7b\"msg_id\":\"test1\",\"msg_text\":\"automod please approve this!\",\"user_id\":\"1234\"\x7d]\x7d" := by
  refine ⟨?_, rfl⟩
  intro req b
  have h1 : ∀ x : Json, Json.render (.obj [("data", x)]) =
      "\x7b" ++ ("\"data\"" ++ ":" ++ Json.render x) ++ "\x7d" := fun _ => rfl
  show Except.ok (Json.render (.obj [("data", .arr (b.map CheckAutoModStatusBody.toJson))])) = _
  rw [h1]
  exact congrArg Except.ok rfl

/-- C7: URI construction is deterministic, equal descriptors of the
same endpoint type build byte-for-byte identical URI strings, and the
query pairs are emitted in struct field declaration order, the
mandatory broadcaster id first and `first` last. -/
theorem c7_uri_deterministic :
    (∀ r s : GetModeratorsRequest, r = s →
      GetModeratorsRequest.get_uri r = GetModeratorsRequest.get_uri s) ∧
    (∀ r s : GetModeratorEventsRequest, r = s →
      GetModeratorEventsRequest.get_uri r = GetModeratorEventsRequest.get_uri s) ∧
    (∀ r s : GetBannedUsersRequest, r = s →
      GetBannedUsersRequest.get_uri r = GetBannedUsersRequest.get_uri s) ∧
    (∀ r s : GetBannedEventsRequest, r = s →
      GetBannedEventsRequest.get_uri r = GetBannedEventsRequest.get_uri s) ∧
    (∀ r s : CheckAutoModStatusRequest, r = s →
      CheckAutoModStatusRequest.get_uri r = CheckAutoModStatusRequest.get_uri s) ∧
    (∀ r : GetBannedEventsRequest,
      GetBannedEventsRequest.queryPairs r =
        ("broadcaster_id", r.broadcaster_id) ::
          (r.user_id.map (fun u => ("user_id", u)) ++ optPair "after" r.after ++
            optPair "first" (r.first.map toString))) :=
  ⟨fun _ _ h => congrArg _ h, fun _ _ h => congrArg _ h, fun _ _ h => congrArg _ h,
   fun _ _ h => congrArg _ h, fun _ _ h => congrArg _ h, fun _ => rfl⟩

/-- Witness for C7: the determinism conjunct applied to a concrete
`GetBannedEventsRequest` descriptor. -/
theorem c7_uri_deterministic_witness :
    GetBannedEventsRequest.get_uri
        { broadcaster_id := "198704263", user_id := ["2"], after := none,
          first := some 5 } =
      GetBannedEventsRequest.get_uri
        { broadcaster_id := "198704263", user_id := ["2"], after := none,
          first := some 5 } :=
  c7_uri_deterministic.2.2.2.1 _ _ rfl

/-- C9: the POST body serialization of `CheckAutoModStatusRequest` never
takes the error branch: every record list serializes successfully. -/
theorem c9_body_never_fails (req : CheckAutoModStatusRequest)
    (b : List CheckAutoModStatusBody) :
    ∃ s, CheckAutoModStatusRequest.body req b = .ok s :=
  ⟨_, rfl⟩

/-- C10: all five request types of the module declare exactly the same
required scope set, the single scope `ModerationRead`. -/
theorem c10_uniform_scope :
    GetModeratorsRequest.SCOPE = [Scope.ModerationRead] ∧
    GetModeratorEventsRequest.SCOPE = [Scope.ModerationRead] ∧
    GetBannedUsersRequest.SCOPE = [Scope.ModerationRead] ∧
    GetBannedEventsRequest.SCOPE = [Scope.ModerationRead] ∧
    CheckAutoModStatusRequest.SCOPE = [Scope.ModerationRead] :=
  ⟨rfl, rfl, rfl, rfl, rfl⟩

end Moderation
